import Mathlib

/-!
Shallow embedding of the WarmReach WebSocket command-relay subsystem
(`src/backend/lambdas`): the connection registry and gateway
(`shared_services/websocket_service.py`), the `$connect` handler
(`websocket-connect/lambda_function.py`), the `$default` event-relay handler
(`websocket-default/lambda_function.py`), the command dispatch HTTP handler
(`command-dispatch/lambda_function.py`), and the generic circuit breaker
(`shared_services/circuit_breaker.py`).

The DynamoDB table is modelled as three association lists (connections,
commands, rate-limit counters).  Transport behaviour (the API Gateway
management API) is modelled by an oracle assigning each connection id an
outcome: success, or a client error with a code; the codes `GoneException`
and `410` are the "gone" signals.  Errors that the Python code lets
propagate are modelled with `Except`, the error carrying both the error
code and the store state at the moment of the raise.
-/

set_option autoImplicit false

namespace WarmReach

/-- Opaque JSON document (command payloads, results, heartbeat timestamps). -/
abbrev Doc := String

/-- A WSCONN item: one registered WebSocket connection. -/
structure Conn where
  userSub : String
  clientType : String
  connectedAt : Nat
deriving DecidableEq, Repr

/-- A COMMAND item: one dispatched unit of work. -/
structure Cmd where
  commandId : String
  cognitoSub : String
  type : String
  payload : Doc
  status : String
  progressStep : Option Nat
  progressTotal : Option Nat
  progressMessage : Option String
  result : Option Doc
  errorCode : Option String
  errorMessage : Option String
  createdAt : Nat
  updatedAt : Option Nat
  ttl : Nat
deriving DecidableEq, Repr

/-- A RATELIMIT item: the per-user fixed-window counter. -/
structure Counter where
  count : Nat
  ttl : Nat
deriving DecidableEq, Repr

/-- The DynamoDB table state, split by item kind: WSCONN items keyed by
connection id, COMMAND items keyed by command id, RATELIMIT items keyed by
(user, window). -/
structure St where
  conns : List (String × Conn)
  cmds : List (String × Cmd)
  counters : List ((String × Nat) × Counter)
deriving DecidableEq, Repr

/-- `put_item`: upsert into an association list (the new entry replaces any
entry with the same key). -/
def putA {κ α : Type} [DecidableEq κ] (k : κ) (v : α) (l : List (κ × α)) : List (κ × α) :=
  (k, v) :: l.filter (fun p => decide (p.1 ≠ k))

/-- `delete_item`: remove the entry with the given key, no error if absent. -/
def delA {κ α : Type} [DecidableEq κ] (k : κ) (l : List (κ × α)) : List (κ × α) :=
  l.filter (fun p => decide (p.1 ≠ k))

/-- `get_item`: look up the entry with the given key. -/
def lookupA {κ α : Type} [DecidableEq κ] (k : κ) : List (κ × α) → Option α
  | [] => none
  | (k2, v) :: rest => if k2 = k then some v else lookupA k rest

/-- Python falsy test for an optional string (`None` and `''` are falsy). -/
def falsyStr : Option String → Bool
  | none => true
  | some s => decide (s = "")

/-- Outcome the transport reports for an API call on one connection id. -/
inductive SendOutcome
  | success
  | clientError (code : String)
deriving DecidableEq, Repr

/-- Transport oracle: outcome of posting to / disconnecting each connection. -/
abbrev Transport := String → SendOutcome

/-- The codes `send_to_connection` and `disconnect_connection` treat as the
session-gone signal. -/
def isGoneCode (code : String) : Bool :=
  decide (code = "GoneException") || decide (code = "410")

/-- A message pushed over the transport (field set covers every message the
relay subsystem constructs; unused fields are `none`). -/
structure OutMsg where
  action : String
  commandId : Option String
  step : Option Nat
  total : Option Nat
  message : Option String
  data : Option Doc
  code : Option String
  ts : Option Doc
  type : Option String
  payload : Option Doc
  echo : Bool
deriving DecidableEq, Repr

/-- Default message skeleton used with structure-update syntax. -/
def OutMsg.base : OutMsg :=
  ⟨"", none, none, none, none, none, none, none, none, none, false⟩

/-! ## WebSocketService (`shared_services/websocket_service.py`) -/

/-- `WebSocketService.store_connection`: write the WSCONN item. -/
def store_connection (st : St) (connectionId userSub clientType : String) (now : Nat) : St :=
  { st with conns := putA connectionId ⟨userSub, clientType, now⟩ st.conns }

/-- `WebSocketService.delete_connection`: remove the WSCONN item. -/
def delete_connection (st : St) (connectionId : String) : St :=
  { st with conns := delA connectionId st.conns }

/-- `WebSocketService.get_connection`: fetch a single connection record. -/
def get_connection (st : St) (connectionId : String) : Option Conn :=
  lookupA connectionId st.conns

/-- `WebSocketService.get_user_connections`: GSI1 query for the connections
of one user, optionally filtered by client type. -/
def get_user_connections (st : St) (userSub : String) (clientType : Option String) :
    List (String × Conn) :=
  st.conns.filter (fun p =>
    decide (p.2.userSub = userSub) &&
      (match clientType with
       | none => true
       | some t => decide (p.2.clientType = t)))

/-- `WebSocketService.send_to_connection`: post to a connection.  Success
returns `true`; a gone-coded client error deletes the WSCONN item and
returns `false`; any other client error propagates. -/
def send_to_connection (tr : Transport) (st : St) (connectionId : String) (_msg : OutMsg) :
    Except (String × St) (Bool × St) :=
  match tr connectionId with
  | .success => .ok (true, st)
  | .clientError code =>
      if isGoneCode code then .ok (false, delete_connection st connectionId)
      else .error (code, st)

/-- `WebSocketService.disconnect_connection`: ask the transport to close the
session (a gone-coded error means already closed and is not an error), then
delete the WSCONN item. -/
def disconnect_connection (tr : Transport) (st : St) (connectionId : String) :
    Except (String × St) St :=
  match tr connectionId with
  | .success => .ok (delete_connection st connectionId)
  | .clientError code =>
      if isGoneCode code then .ok (delete_connection st connectionId)
      else .error (code, st)

/-! ## Response bodies -/

/-- Bodies of the responses the relay subsystem builds (structured, so that
responses built the same way are definitionally equal). -/
inductive RBody
  | text (s : String)
  | errObj (error : String)
  | rateLimitObj (error code : String) (retryAfter : Nat)
  | goneObj (error commandId status : String)
  | createdObj (commandId status : String)
  | cmdObj (commandId status type : String) (result : Option Doc)
      (error : Option String) (createdAt : Option Nat)
deriving DecidableEq, Repr

/-- Response of a WebSocket-route handler. -/
structure WsResp where
  statusCode : Nat
  body : RBody
deriving DecidableEq, Repr

/-! ## EventRelay (`websocket-default/lambda_function.py`) -/

/-- The parsed body of an inbound `$default` message; fields the sender did
not include are `none` (`action` itself defaults to the empty string, as in
`body.get('action', '')`). -/
structure InMsg where
  action : String
  commandId : Option String
  step : Option Nat
  total : Option Nat
  message : Option String
  data : Option Doc
  code : Option String
  ts : Option Doc
deriving DecidableEq, Repr

/-- `_validate_command_ownership`: look up the sending connection, look up
the command, and require the command owner to equal the connection user; on
failure return the benign error response the Python tuple carries. -/
def validate_command_ownership (st : St) (connectionId commandId : String) :
    Except WsResp Cmd :=
  match lookupA connectionId st.conns with
  | none => .error ⟨200, .errObj "Connection not found"⟩
  | some conn =>
      match lookupA commandId st.cmds with
      | none => .error ⟨200, .errObj "Command not found"⟩
      | some cmd =>
          if cmd.cognitoSub ≠ conn.userSub then .error ⟨200, .errObj "Not authorized"⟩
          else .ok cmd

/-- `_forward_to_browser`: snapshot the browser connections of the user and
send the message to each in turn (a gone connection is deleted by
`send_to_connection`; other transport errors propagate). -/
def forward_to_browser (tr : Transport) (st : St) (userSub : String) (msg : OutMsg) :
    Except (String × St) St :=
  (get_user_connections st userSub (some "browser")).foldlM
    (fun acc p => do
      let r ← send_to_connection tr acc p.1 msg
      pure r.2)
    st

/-- The `progress` update: `SET status = executing, progressStep, progressTotal,
progressMessage, updatedAt` on the COMMAND item. -/
def update_progress (st : St) (cid : String) (step total : Nat) (msg : String) (now : Nat) : St :=
  { st with cmds := st.cmds.map (fun p =>
      if p.1 = cid then
        (p.1, { p.2 with
                  status := "executing"
                  progressStep := some step
                  progressTotal := some total
                  progressMessage := some msg
                  updatedAt := some now })
      else p) }

/-- The `result` update: `SET status = completed, result, updatedAt`. -/
def update_result (st : St) (cid : String) (data : Doc) (now : Nat) : St :=
  { st with cmds := st.cmds.map (fun p =>
      if p.1 = cid then
        (p.1, { p.2 with
                  status := "completed"
                  result := some data
                  updatedAt := some now })
      else p) }

/-- The `error` update: `SET status = failed, errorCode, errorMessage, updatedAt`. -/
def update_error (st : St) (cid : String) (code msg : String) (now : Nat) : St :=
  { st with cmds := st.cmds.map (fun p =>
      if p.1 = cid then
        (p.1, { p.2 with
                  status := "failed"
                  errorCode := some code
                  errorMessage := some msg
                  updatedAt := some now })
      else p) }

/-- `_handle_heartbeat`: echo the timestamp back to the sender. -/
def handle_heartbeat (tr : Transport) (st : St) (connectionId : String) (body : InMsg) :
    Except (String × St) (WsResp × St) := do
  let r ← send_to_connection tr st connectionId
    { OutMsg.base with action := "heartbeat", echo := true, ts := body.ts }
  .ok (⟨200, .text "ok"⟩, r.2)

/-- `_handle_progress`: validate ownership, record progress on the command,
forward a `command_progress` event to the browser connections. -/
def handle_progress (tr : Transport) (st : St) (connectionId : String) (body : InMsg)
    (now : Nat) : Except (String × St) (WsResp × St) :=
  if falsyStr body.commandId then .ok (⟨200, .errObj "Missing commandId"⟩, st)
  else
    let commandId := body.commandId.getD ""
    match validate_command_ownership st connectionId commandId with
    | .error e => .ok (e, st)
    | .ok cmd => do
        let st1 := update_progress st commandId (body.step.getD 0) (body.total.getD 0)
          (body.message.getD "") now
        let st2 ← forward_to_browser tr st1 cmd.cognitoSub
          { OutMsg.base with
              action := "command_progress"
              commandId := some commandId
              step := some (body.step.getD 0)
              total := some (body.total.getD 0)
              message := some (body.message.getD "") }
        .ok (⟨200, .text "ok"⟩, st2)

/-- `_handle_result`: validate ownership, mark the command completed with its
result, forward a `command_result` event to the browser connections. -/
def handle_result (tr : Transport) (st : St) (connectionId : String) (body : InMsg)
    (now : Nat) : Except (String × St) (WsResp × St) :=
  if falsyStr body.commandId then .ok (⟨200, .errObj "Missing commandId"⟩, st)
  else
    let commandId := body.commandId.getD ""
    match validate_command_ownership st connectionId commandId with
    | .error e => .ok (e, st)
    | .ok cmd => do
        let st1 := update_result st commandId (body.data.getD "") now
        let st2 ← forward_to_browser tr st1 cmd.cognitoSub
          { OutMsg.base with
              action := "command_result"
              commandId := some commandId
              data := some (body.data.getD "") }
        .ok (⟨200, .text "ok"⟩, st2)

/-- `_handle_error`: validate ownership, mark the command failed with its
error code and message, forward a `command_error` event to the browser
connections. -/
def handle_error (tr : Transport) (st : St) (connectionId : String) (body : InMsg)
    (now : Nat) : Except (String × St) (WsResp × St) :=
  if falsyStr body.commandId then .ok (⟨200, .errObj "Missing commandId"⟩, st)
  else
    let commandId := body.commandId.getD ""
    match validate_command_ownership st connectionId commandId with
    | .error e => .ok (e, st)
    | .ok cmd => do
        let st1 := update_error st commandId (body.code.getD "UNKNOWN")
          (body.message.getD "Unknown error") now
        let st2 ← forward_to_browser tr st1 cmd.cognitoSub
          { OutMsg.base with
              action := "command_error"
              commandId := some commandId
              code := some (body.code.getD "UNKNOWN")
              message := some (body.message.getD "Unknown error") }
        .ok (⟨200, .text "ok"⟩, st2)

/-- `lambda_handler` of the `$default` route: dispatch on the `action` field;
an unknown action gets a benign error body and no state change. -/
def default_handler (tr : Transport) (st : St) (connectionId : String) (body : InMsg)
    (now : Nat) : Except (String × St) (WsResp × St) :=
  if body.action = "heartbeat" then handle_heartbeat tr st connectionId body
  else if body.action = "progress" then handle_progress tr st connectionId body now
  else if body.action = "result" then handle_result tr st connectionId body now
  else if body.action = "error" then handle_error tr st connectionId body now
  else .ok (⟨200, .errObj ("Unknown action: " ++ body.action)⟩, st)

/-! ## ConnectOrchestrator (`websocket-connect/lambda_function.py`) -/

/-- The claims of a validated Cognito JWT (only `sub` is read). -/
structure Claims where
  sub : Option String
deriving DecidableEq, Repr

/-- Oracle for `_validate_jwt`: `none` means the token is invalid. -/
abbrev JwtValidator := String → Option Claims

/-- The query-string parameters of a connect request. -/
structure ConnectQS where
  token : Option String
  clientType : Option String
deriving DecidableEq, Repr

/-- The try/except around `disconnect_connection` in the connect handler:
an eviction failure is logged and the loop continues with the state as the
raise left it. -/
def try_disconnect (tr : Transport) (st : St) (connectionId : String) : St :=
  match disconnect_connection tr st connectionId with
  | .ok st2 => st2
  | .error e => e.2

/-- `lambda_handler` of the `$connect` route: resolve the client type
(defaulting to `browser`), validate the token, extract `sub`, evict every
other connection of the same (user, type), and register the new one. -/
def connect_handler (jwt : JwtValidator) (tr : Transport) (st : St)
    (connectionId : String) (qs : ConnectQS) (now : Nat) : WsResp × St :=
  let clientType := qs.clientType.getD "browser"
  if clientType ≠ "browser" ∧ clientType ≠ "agent" then
    (⟨400, .text "Invalid clientType"⟩, st)
  else if falsyStr qs.token then (⟨401, .text "Missing token"⟩, st)
  else
    match jwt (qs.token.getD "") with
    | none => (⟨401, .text "Invalid token"⟩, st)
    | some claims =>
        if falsyStr claims.sub then (⟨401, .text "Invalid token: no sub claim"⟩, st)
        else
          let userSub := claims.sub.getD ""
          let existing := get_user_connections st userSub (some clientType)
          let st1 := existing.foldl
            (fun acc p => if p.1 ≠ connectionId then try_disconnect tr acc p.1 else acc) st
          (⟨200, .text "Connected"⟩, store_connection st1 connectionId userSub clientType now)

/-! ## CommandDispatcher (`command-dispatch/lambda_function.py`) -/

/-- Response of the HTTP command-dispatch handler (`_response`): status code,
the resolved `Access-Control-Allow-Origin` header, and the body. -/
structure HResp where
  statusCode : Nat
  allowOrigin : String
  body : RBody
deriving DecidableEq, Repr

/-- `_response`: echo the request origin when allowed, else the first
configured origin (or a wildcard when none is configured). -/
def http_response (origins : List String) (code : Nat) (body : RBody)
    (origin : Option String) : HResp :=
  ⟨code,
   (match origin with
    | some o => if origins.contains o then o else origins.headD "*"
    | none => origins.headD "*"),
   body⟩

/-- `RATE_LIMIT_WINDOW` (seconds). -/
def RATE_LIMIT_WINDOW : Nat := 60

/-- `COMMAND_TTL_SECONDS` (24 hours). -/
def COMMAND_TTL_SECONDS : Nat := 86400

/-- `_check_rate_limit` with the counter store available: the atomic
`ADD count 1` guarded by `attribute_not_exists(count) OR count < limit`.
A failed condition writes nothing and returns `false`; otherwise the counter
is incremented (ttl set only on creation) and the call is allowed. -/
def check_rate_limit (st : St) (userSub : String) (now limitMax : Nat) : Bool × St :=
  let windowKey := now / RATE_LIMIT_WINDOW
  match lookupA (userSub, windowKey) st.counters with
  | none =>
      let fresh : Counter := ⟨1, now + RATE_LIMIT_WINDOW + 60⟩
      (true, { st with counters := putA (userSub, windowKey) fresh st.counters })
  | some c =>
      if c.count < limitMax then
        (true, { st with counters := putA (userSub, windowKey) ⟨c.count + 1, c.ttl⟩ st.counters })
      else (false, st)

/-- The body of a `POST /commands` request. -/
structure CreateReq where
  type : Option String
  payload : Doc
deriving DecidableEq, Repr

/-- The status-only `update_item` used by `_create_command` after dispatch. -/
def set_cmd_status (st : St) (cid status : String) : St :=
  { st with cmds := st.cmds.map (fun p =>
      if p.1 = cid then (p.1, { p.2 with status := status }) else p) }

/-- The best-effort `command_queued` notification loop over the browser
connections of the user. -/
def notify_browsers (tr : Transport) (st : St) (userSub fid : String) :
    Except (String × St) St :=
  (get_user_connections st userSub (some "browser")).foldlM
    (fun acc p => do
      let r ← send_to_connection tr acc p.1
        { OutMsg.base with action := "command_queued", commandId := some fid }
      pure r.2)
    st

/-- `_create_command`: validate the type, rate-limit, resolve the agent
connection, persist the command as `pending`, push it to the agent; a gone
agent marks the command `failed` and returns 503 with the command id; a
delivered push marks it `dispatched`, best-effort notifies the browser
connections, and returns 200. `freshId` stands for the generated uuid. -/
def create_command (origins : List String) (limitMax : Nat) (tr : Transport) (st : St)
    (req : CreateReq) (userSub : String) (origin : Option String) (now : Nat)
    (freshId : String) : Except (String × St) (HResp × St) :=
  if falsyStr req.type then
    .ok (http_response origins 400 (.errObj "type is required") origin, st)
  else
    let rl := check_rate_limit st userSub now limitMax
    if !rl.1 then
      .ok (http_response origins 429
        (.rateLimitObj "Too many commands. Please wait before sending more."
          "RATE_LIMITED" RATE_LIMIT_WINDOW) origin, rl.2)
    else
      match get_user_connections rl.2 userSub (some "agent") with
      | [] => .ok (http_response origins 409 (.errObj "No agent connected") origin, rl.2)
      | agentConn :: _ =>
          let cmdType := req.type.getD ""
          let newCmd : Cmd := ⟨freshId, userSub, cmdType, req.payload, "pending",
            none, none, none, none, none, none, now, none, now + COMMAND_TTL_SECONDS⟩
          let st2 := { rl.2 with cmds := putA freshId newCmd rl.2.cmds }
          do
            let sent ← send_to_connection tr st2 agentConn.1
              { OutMsg.base with
                  action := "execute"
                  commandId := some freshId
                  type := some cmdType
                  payload := some req.payload }
            if !sent.1 then
              .ok (http_response origins 503
                (.goneObj "Agent disconnected" freshId "failed") origin,
                set_cmd_status sent.2 freshId "failed")
            else
              let st4 := set_cmd_status sent.2 freshId "dispatched"
              let st5 ← notify_browsers tr st4 userSub freshId
              .ok (http_response origins 200 (.createdObj freshId "dispatched") origin, st5)

/-- `_get_command`: the polling fallback.  A missing command and a command
owned by a different user return the same 404 response. -/
def get_command (origins : List String) (st : St) (commandId userSub : String)
    (origin : Option String) : HResp :=
  match lookupA commandId st.cmds with
  | none => http_response origins 404 (.errObj "Command not found") origin
  | some item =>
      if item.cognitoSub ≠ userSub then
        http_response origins 404 (.errObj "Command not found") origin
      else
        http_response origins 200
          (.cmdObj item.commandId item.status item.type item.result item.errorMessage
            (some item.createdAt)) origin

/-! ## CircuitBreaker (`shared_services/circuit_breaker.py`)

Time is modelled as a `Nat` passed explicitly where the Python reads
`time.time()`. -/

/-- The mutable fields and configuration of a `CircuitBreaker` instance. -/
structure CB where
  failureThreshold : Nat
  recoveryTimeout : Nat
  halfOpenMaxCalls : Nat
  cbst : String
  failureCount : Nat
  lastFailureTime : Option Nat
  halfOpenCalls : Nat
deriving DecidableEq, Repr

/-- `CircuitBreaker._should_attempt_recovery`. -/
def should_attempt_recovery (cb : CB) (now : Nat) : Bool :=
  match cb.lastFailureTime with
  | none => true
  | some t => decide (cb.recoveryTimeout ≤ now - t)

/-- The `state` property: reading it moves an open breaker whose recovery
timeout has elapsed to `half_open` (resetting the half-open call count). -/
def cb_state (cb : CB) (now : Nat) : String × CB :=
  if cb.cbst = "open" ∧ should_attempt_recovery cb now then
    ("half_open", { cb with cbst := "half_open", halfOpenCalls := 0 })
  else (cb.cbst, cb)

/-- `CircuitBreaker.on_success`: reset to closed. -/
def cb_on_success (cb : CB) : CB :=
  { cb with cbst := "closed", failureCount := 0, lastFailureTime := none, halfOpenCalls := 0 }

/-- `CircuitBreaker.on_failure`: count the failure, stamp the time, and trip
to open from half_open always, from closed at the threshold. -/
def cb_on_failure (cb : CB) (now : Nat) : CB :=
  let cb1 := { cb with failureCount := cb.failureCount + 1, lastFailureTime := some now }
  if cb1.cbst = "half_open" then { cb1 with cbst := "open" }
  else if cb1.failureThreshold ≤ cb1.failureCount then { cb1 with cbst := "open" }
  else cb1

/-- Outcome of one `CircuitBreaker.call`. -/
inductive CBResult
  | ok
  | rejected (remaining : Nat)
  | funcFailed
deriving DecidableEq, Repr

/-- `CircuitBreaker.call`: read the state (possibly moving open to
half_open), reject while open or when the half-open budget is spent,
otherwise invoke the wrapped function (`funcSucceeds` abstracts its
outcome) and record the result. -/
def cb_call (cb : CB) (now : Nat) (funcSucceeds : Bool) : CBResult × CB :=
  let s := cb_state cb now
  if s.1 = "open" then
    (.rejected (s.2.recoveryTimeout - (now - (s.2.lastFailureTime.getD 0))), s.2)
  else if s.1 = "half_open" ∧ s.2.halfOpenMaxCalls ≤ s.2.halfOpenCalls then
    (.rejected s.2.recoveryTimeout, s.2)
  else
    let cb2 := if s.1 = "half_open" then { s.2 with halfOpenCalls := s.2.halfOpenCalls + 1 }
               else s.2
    if funcSucceeds then (.ok, cb_on_success cb2)
    else (.funcFailed, cb_on_failure cb2 now)

/-! ## Association-list lemmas -/

theorem lookupA_putA_self {κ α : Type} [DecidableEq κ] (k : κ) (v : α) (l : List (κ × α)) :
    lookupA k (putA k v l) = some v := by
  simp [putA, lookupA]

theorem lookupA_delA_self {κ α : Type} [DecidableEq κ] (k : κ) (l : List (κ × α)) :
    lookupA k (delA k l) = none := by
  induction l with
  | nil => rfl
  | cons p rest ih =>
      by_cases h : p.1 = k
      · simpa [delA, List.filter, h] using ih
      · simpa [delA, List.filter, h, lookupA] using ih

theorem lookupA_map_if {κ α : Type} [DecidableEq κ] (k : κ) (f : α → α) (l : List (κ × α)) :
    lookupA k (l.map (fun p => if p.1 = k then (p.1, f p.2) else p)) = (lookupA k l).map f := by
  induction l with
  | nil => rfl
  | cons p rest ih =>
      simp only [List.map]
      by_cases h : p.1 = k
      · rw [if_pos h]; simp [lookupA, h, ih]
      · rw [if_neg h]; simp [lookupA, h, ih]

/-! ## Claim theorems -/

/-- C7: `ConnectionGateway.send` — on success it reports delivered with no
registry mutation; on a transport-reported gone signal it removes the
registry record of `cid` before reporting gone; any other transport error
propagates unswallowed with the registry untouched. -/
theorem C7_send_gone_cleanup (tr : Transport) (st : St) (cid : String) (msg : OutMsg)
    (code : String) :
    (tr cid = .success → send_to_connection tr st cid msg = .ok (true, st))
    ∧ (tr cid = .clientError code → isGoneCode code = true →
        send_to_connection tr st cid msg = .ok (false, delete_connection st cid)
        ∧ lookupA cid (delete_connection st cid).conns = none)
    ∧ (tr cid = .clientError code → isGoneCode code = false →
        send_to_connection tr st cid msg = .error (code, st)) :=
  ⟨fun h => by simp [send_to_connection, h],
   fun h hg => ⟨by simp [send_to_connection, h, hg],
                by simp [delete_connection, lookupA_delA_self]⟩,
   fun h hg => by simp [send_to_connection, h, hg]⟩

theorem C7_witness :
    ((fun _ => SendOutcome.success) "a" = SendOutcome.success
      → send_to_connection (fun _ => .success) ⟨[], [], []⟩ "a" OutMsg.base
          = .ok (true, ⟨[], [], []⟩))
    ∧ ((fun (_ : String) => SendOutcome.clientError "GoneException") "a"
          = SendOutcome.clientError "GoneException"
        → isGoneCode "GoneException" = true
        → send_to_connection (fun _ => .clientError "GoneException")
              ⟨[("a", ⟨"u", "browser", 0⟩)], [], []⟩ "a" OutMsg.base
            = .ok (false, delete_connection ⟨[("a", ⟨"u", "browser", 0⟩)], [], []⟩ "a")
          ∧ lookupA "a" (delete_connection ⟨[("a", ⟨"u", "browser", 0⟩)], [], []⟩ "a").conns
            = none)
    ∧ ((fun (_ : String) => SendOutcome.clientError "Boom") "a" = SendOutcome.clientError "Boom"
        → isGoneCode "Boom" = false
        → send_to_connection (fun _ => .clientError "Boom") ⟨[], [], []⟩ "a" OutMsg.base
            = .error ("Boom", ⟨[], [], []⟩)) :=
  ⟨(C7_send_gone_cleanup (fun _ => .success) ⟨[], [], []⟩ "a" OutMsg.base "x").1,
   (C7_send_gone_cleanup (fun _ => .clientError "GoneException")
      ⟨[("a", ⟨"u", "browser", 0⟩)], [], []⟩ "a" OutMsg.base "GoneException").2.1,
   (C7_send_gone_cleanup (fun _ => .clientError "Boom") ⟨[], [], []⟩ "a" OutMsg.base "Boom").2.2⟩

/-- C6: `getStatus` indistinguishability — for a command id that does not
exist and for one that exists but belongs to a different user, the handler
returns the identical 404 response (same status code, headers and body). -/
theorem C6_not_found_indistinguishable (origins : List String) (st1 st2 : St)
    (id userSub : String) (origin : Option String) (c : Cmd)
    (h1 : lookupA id st1.cmds = none)
    (h2 : lookupA id st2.cmds = some c) (h3 : c.cognitoSub ≠ userSub) :
    get_command origins st1 id userSub origin = get_command origins st2 id userSub origin
    ∧ get_command origins st1 id userSub origin
      = http_response origins 404 (.errObj "Command not found") origin := by
  constructor <;> simp [get_command, h1, h2, h3]

theorem C6_witness :
    lookupA "c9" (⟨[], [], []⟩ : St).cmds = none
    ∧ lookupA "c9"
        (⟨[], [("c9", ⟨"c9", "other", "t", "", "pending", none, none, none, none, none,
                       none, 0, none, 0⟩)], []⟩ : St).cmds
        = some ⟨"c9", "other", "t", "", "pending", none, none, none, none, none, none, 0, none, 0⟩
    ∧ get_command [] (⟨[], [], []⟩ : St) "c9" "u1" none
      = get_command []
          (⟨[], [("c9", ⟨"c9", "other", "t", "", "pending", none, none, none, none, none,
                         none, 0, none, 0⟩)], []⟩ : St) "c9" "u1" none :=
  ⟨rfl, rfl,
   (C6_not_found_indistinguishable [] ⟨[], [], []⟩
      ⟨[], [("c9", ⟨"c9", "other", "t", "", "pending", none, none, none, none, none,
                    none, 0, none, 0⟩)], []⟩ "c9" "u1" none
      ⟨"c9", "other", "t", "", "pending", none, none, none, none, none, none, 0, none, 0⟩
      rfl rfl (by decide)).1⟩

/-- Any of the three rejection conditions makes the ownership check return
a benign error response. -/
theorem validate_error_of_reject (st : St) (connId cid : String)
    (hrej : lookupA connId st.conns = none
      ∨ lookupA cid st.cmds = none
      ∨ (∃ conn cmd, lookupA connId st.conns = some conn ∧ lookupA cid st.cmds = some cmd
          ∧ cmd.cognitoSub ≠ conn.userSub)) :
    ∃ m, validate_command_ownership st connId cid = .error ⟨200, .errObj m⟩ := by
  rcases hrej with h | h | ⟨conn, cmd, hc, hm, hne⟩
  · exact ⟨"Connection not found", by simp [validate_command_ownership, h]⟩
  · cases hconn : lookupA connId st.conns with
    | none => exact ⟨"Connection not found", by simp [validate_command_ownership, hconn]⟩
    | some conn => exact ⟨"Command not found", by simp [validate_command_ownership, hconn, h]⟩
  · exact ⟨"Not authorized", by simp [validate_command_ownership, hc, hm, hne]⟩

/-- C1: every `progress`, `result` or `error` event whose sending connection
is unregistered, whose command does not exist, or whose command belongs to a
different user than the sending connection, is answered with a benign
error-body response (status 200, error body) and leaves the store — in
particular the referenced command record — entirely unchanged. -/
theorem C1_eventrelay_ownership_rejection (tr : Transport) (st : St) (connId : String)
    (body : InMsg) (now : Nat) (cid : String)
    (hact : body.action = "progress" ∨ body.action = "result" ∨ body.action = "error")
    (hcid : body.commandId = some cid) (hne : cid ≠ "")
    (hrej : lookupA connId st.conns = none
      ∨ lookupA cid st.cmds = none
      ∨ (∃ conn cmd, lookupA connId st.conns = some conn ∧ lookupA cid st.cmds = some cmd
          ∧ cmd.cognitoSub ≠ conn.userSub)) :
    ∃ m, default_handler tr st connId body now = .ok (⟨200, .errObj m⟩, st) := by
  have hfal : falsyStr body.commandId = false := by simp [falsyStr, hcid, hne]
  obtain ⟨m, hval⟩ := validate_error_of_reject st connId cid hrej
  refine ⟨m, ?_⟩
  rcases hact with h | h | h <;>
    simp [default_handler, h, handle_progress, handle_result, handle_error, falsyStr,
      hne, hcid, hval]

theorem C1_witness :
    ("c1" : String) ≠ ""
    ∧ lookupA "a" (⟨[], [], []⟩ : St).conns = none
    ∧ ∃ m, default_handler (fun _ => .success) ⟨[], [], []⟩ "a"
          ⟨"progress", some "c1", none, none, none, none, none, none⟩ 0
        = .ok (⟨200, .errObj m⟩, ⟨[], [], []⟩) :=
  ⟨by decide, rfl,
   C1_eventrelay_ownership_rejection (fun _ => .success) ⟨[], [], []⟩ "a"
     ⟨"progress", some "c1", none, none, none, none, none, none⟩ 0 "c1"
     (Or.inl rfl) rfl (by decide) (Or.inl rfl)⟩

/-- The store state a `$default` invocation leaves behind, whether it
returned a response or let a transport error propagate. -/
def relay_out_state : Except (String × St) (WsResp × St) → St
  | .ok r => r.2
  | .error e => e.2

/-- The store state a browser fan-out leaves behind. -/
def fwd_out_state : Except (String × St) St → St
  | .ok s => s
  | .error e => e.2

theorem send_preserves_cmds (tr : Transport) (st : St) (cid : String) (msg : OutMsg) :
    (match send_to_connection tr st cid msg with
     | .ok r => r.2.cmds
     | .error e => e.2.cmds) = st.cmds := by
  cases h : tr cid with
  | success => simp [send_to_connection, h]
  | clientError code =>
      by_cases hg : isGoneCode code = true <;>
        simp [send_to_connection, h, hg, delete_connection]

theorem foldSend_preserves_cmds (tr : Transport) (msg : OutMsg) (l : List (String × Conn)) :
    ∀ st : St,
      (fwd_out_state (l.foldlM (fun acc p => do
          let r ← send_to_connection tr acc p.1 msg
          pure r.2) st)).cmds = st.cmds := by
  induction l with
  | nil => intro st; rfl
  | cons p rest ih =>
      intro st
      rw [List.foldlM_cons]
      have hs := send_preserves_cmds tr st p.1 msg
      cases h : send_to_connection tr st p.1 msg with
      | error e =>
          rw [h] at hs
          simpa [Bind.bind, Except.bind, h, fwd_out_state] using hs
      | ok r =>
          rw [h] at hs
          simp only [Bind.bind, Except.bind, h, pure, Except.pure]
          exact (ih r.2).trans hs

theorem forward_preserves_cmds (tr : Transport) (st : St) (u : String) (msg : OutMsg) :
    (fwd_out_state (forward_to_browser tr st u msg)).cmds = st.cmds :=
  foldSend_preserves_cmds tr msg (get_user_connections st u (some "browser")) st

theorem relay_out_state_bind (f : Except (String × St) St) (resp : WsResp) :
    relay_out_state (do
      let st2 ← f
      .ok (resp, st2)) = fwd_out_state f := by
  cases f <;> rfl

theorem lookup_update_progress (st : St) (cid : String) (s t : Nat) (m : String) (n : Nat) :
    lookupA cid (update_progress st cid s t m n).cmds
      = (lookupA cid st.cmds).map (fun c =>
          { c with
              status := "executing"
              progressStep := some s
              progressTotal := some t
              progressMessage := some m
              updatedAt := some n }) := by
  exact lookupA_map_if cid (fun c => { c with status := "executing", progressStep := some s, progressTotal := some t, progressMessage := some m, updatedAt := some n }) st.cmds

theorem lookup_update_result (st : St) (cid : String) (d : Doc) (n : Nat) :
    lookupA cid (update_result st cid d n).cmds
      = (lookupA cid st.cmds).map (fun c =>
          { c with status := "completed", result := some d, updatedAt := some n }) := by
  exact lookupA_map_if cid (fun c => { c with status := "completed", result := some d, updatedAt := some n }) st.cmds

theorem lookup_update_error (st : St) (cid : String) (ec em : String) (n : Nat) :
    lookupA cid (update_error st cid ec em n).cmds
      = (lookupA cid st.cmds).map (fun c =>
          { c with
              status := "failed"
              errorCode := some ec
              errorMessage := some em
              updatedAt := some n }) := by
  exact lookupA_map_if cid (fun c => { c with status := "failed", errorCode := some ec, errorMessage := some em, updatedAt := some n }) st.cmds

theorem lookup_set_cmd_status (st : St) (cid status : String) :
    lookupA cid (set_cmd_status st cid status).cmds
      = (lookupA cid st.cmds).map (fun c => { c with status := status }) := by
  exact lookupA_map_if cid (fun c => { c with status := status }) st.cmds

/-- C3 counterexample: a command already `completed`, whose owning user's
agent connection then delivers a `progress` event, has its status overwritten
to `executing` — the terminal state is not a sink under EventRelay. -/
theorem C3_counterexample :
    (lookupA "c1"
        (⟨[("agentA", ⟨"u1", "agent", 0⟩)],
          [("c1", ⟨"c1", "u1", "search", "", "completed", none, none, none, some "r",
                   none, none, 0, some 10, 86400⟩)], []⟩ : St).cmds).map Cmd.status
      = some "completed"
    ∧ (lookupA "c1"
        (relay_out_state (default_handler (fun _ => .success)
          ⟨[("agentA", ⟨"u1", "agent", 0⟩)],
           [("c1", ⟨"c1", "u1", "search", "", "completed", none, none, none, some "r",
                    none, none, 0, some 10, 86400⟩)], []⟩
          "agentA" ⟨"progress", some "c1", some 3, some 10, some "step", none, none, none⟩
          20)).cmds).map Cmd.status
      = some "executing" := by
  constructor <;> rfl

/-- C3 amended: `completed` and `failed` are not sinks under EventRelay —
the implementation performs no terminal-state check, so an authorized
`progress` (resp. `result`, `error`) event delivered for a command whose
status is `completed` or `failed` overwrites the status to `executing`
(resp. `completed`, `failed`). -/
theorem C3_terminal_states_overwritten (tr : Transport) (st : St) (connId : String)
    (body : InMsg) (now : Nat) (cid : String) (conn : Conn) (cmd : Cmd)
    (hcid : body.commandId = some cid) (hne : cid ≠ "")
    (hconn : lookupA connId st.conns = some conn)
    (hcmd : lookupA cid st.cmds = some cmd)
    (hown : cmd.cognitoSub = conn.userSub)
    (_hterm : cmd.status = "completed" ∨ cmd.status = "failed") :
    (body.action = "progress" →
      (lookupA cid (relay_out_state (default_handler tr st connId body now)).cmds).map Cmd.status
        = some "executing")
    ∧ (body.action = "result" →
      (lookupA cid (relay_out_state (default_handler tr st connId body now)).cmds).map Cmd.status
        = some "completed")
    ∧ (body.action = "error" →
      (lookupA cid (relay_out_state (default_handler tr st connId body now)).cmds).map Cmd.status
        = some "failed") := by
  have hval : validate_command_ownership st connId cid = .ok cmd := by
    simp [validate_command_ownership, hconn, hcmd, hown]
  refine ⟨fun h => ?_, fun h => ?_, fun h => ?_⟩
  · rw [show relay_out_state (default_handler tr st connId body now)
        = fwd_out_state (forward_to_browser tr
            (update_progress st cid (body.step.getD 0) (body.total.getD 0)
              (body.message.getD "") now) cmd.cognitoSub
            { OutMsg.base with
                action := "command_progress"
                commandId := some cid
                step := some (body.step.getD 0)
                total := some (body.total.getD 0)
                message := some (body.message.getD "") }) from by
      simp [default_handler, h, handle_progress, falsyStr, hne, hcid, hval,
        relay_out_state_bind]]
    rw [forward_preserves_cmds, lookup_update_progress, hcmd]
    rfl
  · rw [show relay_out_state (default_handler tr st connId body now)
        = fwd_out_state (forward_to_browser tr
            (update_result st cid (body.data.getD "") now) cmd.cognitoSub
            { OutMsg.base with
                action := "command_result"
                commandId := some cid
                data := some (body.data.getD "") }) from by
      simp [default_handler, h, handle_result, falsyStr, hne, hcid, hval,
        relay_out_state_bind]]
    rw [forward_preserves_cmds, lookup_update_result, hcmd]
    rfl
  · rw [show relay_out_state (default_handler tr st connId body now)
        = fwd_out_state (forward_to_browser tr
            (update_error st cid (body.code.getD "UNKNOWN")
              (body.message.getD "Unknown error") now) cmd.cognitoSub
            { OutMsg.base with
                action := "command_error"
                commandId := some cid
                code := some (body.code.getD "UNKNOWN")
                message := some (body.message.getD "Unknown error") }) from by
      simp [default_handler, h, handle_error, falsyStr, hne, hcid, hval,
        relay_out_state_bind]]
    rw [forward_preserves_cmds, lookup_update_error, hcmd]
    rfl

theorem C3_witness :
    ("c1" : String) ≠ ""
    ∧ (lookupA "c1"
        (relay_out_state (default_handler (fun _ => .success)
          ⟨[("agentA", ⟨"u1", "agent", 0⟩)],
           [("c1", ⟨"c1", "u1", "search", "", "failed", none, none, none, none,
                    some "E", some "boom", 0, some 10, 86400⟩)], []⟩
          "agentA" ⟨"result", some "c1", none, none, none, some "out", none, none⟩
          20)).cmds).map Cmd.status
      = some "completed" :=
  ⟨by decide,
   (C3_terminal_states_overwritten (fun _ => .success)
      ⟨[("agentA", ⟨"u1", "agent", 0⟩)],
       [("c1", ⟨"c1", "u1", "search", "", "failed", none, none, none, none,
                some "E", some "boom", 0, some 10, 86400⟩)], []⟩
      "agentA" ⟨"result", some "c1", none, none, none, some "out", none, none⟩
      20 "c1" ⟨"u1", "agent", 0⟩
      ⟨"c1", "u1", "search", "", "failed", none, none, none, none, some "E", some "boom",
       0, some 10, 86400⟩
      rfl (by decide) rfl rfl rfl (Or.inr rfl)).2.1 rfl⟩

/-- With a valid resolved client type, the connect handler answers 401 or
200, never 400. -/
theorem connect_status_valid_ct (jwt : JwtValidator) (tr : Transport) (st : St)
    (cid : String) (qs : ConnectQS) (now : Nat)
    (hv : qs.clientType.getD "browser" = "browser" ∨ qs.clientType.getD "browser" = "agent") :
    (connect_handler jwt tr st cid qs now).1.statusCode = 401
    ∨ (connect_handler jwt tr st cid qs now).1.statusCode = 200 := by
  unfold connect_handler
  have hcond : ¬(qs.clientType.getD "browser" ≠ "browser"
      ∧ qs.clientType.getD "browser" ≠ "agent") := by
    rcases hv with h | h <;> simp [h]
  rw [if_neg hcond]
  by_cases ht : falsyStr qs.token = true
  · simp [ht]
  · cases hj : jwt (qs.token.getD "") with
    | none => simp [ht, hj]
    | some claims =>
        by_cases hsub : falsyStr claims.sub = true <;> simp [ht, hj, hsub]

/-- C10: a connect request with no `clientType` query parameter is handled
exactly as one with `clientType=browser` — it reaches token validation
rather than being rejected — and a 400 arises precisely when `clientType`
is present with a value outside browser/agent. -/
theorem C10_missing_clienttype_defaults_browser (jwt : JwtValidator) (tr : Transport)
    (st : St) (cid : String) (qs : ConnectQS) (now : Nat) :
    (qs.clientType = none →
      connect_handler jwt tr st cid qs now
        = connect_handler jwt tr st cid ⟨qs.token, some "browser"⟩ now
      ∧ (connect_handler jwt tr st cid qs now).1.statusCode ≠ 400)
    ∧ ((connect_handler jwt tr st cid qs now).1.statusCode = 400 ↔
        ∃ s, qs.clientType = some s ∧ s ≠ "browser" ∧ s ≠ "agent") := by
  constructor
  · intro h
    constructor
    · simp [connect_handler, h]
    · rcases connect_status_valid_ct jwt tr st cid qs now (Or.inl (by simp [h])) with hc | hc <;>
        simp [hc]
  · cases hct : qs.clientType with
    | none =>
        rcases connect_status_valid_ct jwt tr st cid qs now (Or.inl (by simp [hct])) with hc | hc <;>
          simp [hc]
    | some s =>
        by_cases hb : s = "browser"
        · rcases connect_status_valid_ct jwt tr st cid qs now (Or.inl (by simp [hct, hb])) with hc | hc <;>
            simp [hc, hct, hb]
        · by_cases ha : s = "agent"
          · rcases connect_status_valid_ct jwt tr st cid qs now (Or.inr (by simp [hct, ha])) with hc | hc <;>
              simp [hc, hct, ha]
          · have h4 : connect_handler jwt tr st cid qs now = (⟨400, .text "Invalid clientType"⟩, st) := by
              unfold connect_handler
              rw [if_pos]
              simp [hct, hb, ha]
            simp [h4, hct]
            exact ⟨hb, ha⟩

theorem C10_witness :
    ((⟨some "tk", none⟩ : ConnectQS).clientType = none →
      connect_handler (fun _ => none) (fun _ => .success) ⟨[], [], []⟩ "a"
          ⟨some "tk", none⟩ 0
        = connect_handler (fun _ => none) (fun _ => .success) ⟨[], [], []⟩ "a"
            ⟨some "tk", some "browser"⟩ 0
      ∧ (connect_handler (fun _ => none) (fun _ => .success) ⟨[], [], []⟩ "a"
          ⟨some "tk", none⟩ 0).1.statusCode ≠ 400)
    ∧ ((connect_handler (fun _ => none) (fun _ => .success) ⟨[], [], []⟩ "a"
          ⟨some "tk", none⟩ 0).1.statusCode = 400 ↔
        ∃ s, (⟨some "tk", none⟩ : ConnectQS).clientType = some s
          ∧ s ≠ "browser" ∧ s ≠ "agent") :=
  C10_missing_clienttype_defaults_browser (fun _ => none) (fun _ => .success)
    ⟨[], [], []⟩ "a" ⟨some "tk", none⟩ 0

/-- C9: the circuit breaker (i) moves from closed to open on a failed call
exactly when the consecutive-failure count reaches the threshold, (ii) while
open and before the recovery timeout has elapsed rejects every call without
invoking the wrapped function and without changing state, and (iii) once the
timeout has elapsed moves to half-open and permits one trial call whose
success closes the breaker and whose failure reopens it. -/
theorem C9_circuit_breaker (cb : CB) (now t : Nat) :
    (cb.cbst = "closed" →
      (((cb_call cb now false).2).cbst = "open" ↔ cb.failureThreshold ≤ cb.failureCount + 1))
    ∧ (cb.cbst = "open" → cb.lastFailureTime = some t → t ≤ now →
        now < t + cb.recoveryTimeout →
        ∀ f, cb_call cb now f = (.rejected (cb.recoveryTimeout - (now - t)), cb))
    ∧ (cb.cbst = "open" → cb.lastFailureTime = some t → t + cb.recoveryTimeout ≤ now →
        0 < cb.halfOpenMaxCalls →
        (cb_state cb now).1 = "half_open"
        ∧ (cb_call cb now true).1 = .ok ∧ ((cb_call cb now true).2).cbst = "closed"
        ∧ (cb_call cb now false).1 = .funcFailed
        ∧ ((cb_call cb now false).2).cbst = "open") := by
  refine ⟨fun hcl => ?_, fun hop hlast hle hlt f => ?_, fun hop hlast hrec hmax => ?_⟩
  · have hs : cb_state cb now = ("closed", cb) := by
      simp [cb_state, hcl]
    by_cases h : cb.failureThreshold ≤ cb.failureCount + 1 <;>
      simp [cb_call, hs, hcl, cb_on_failure, h]
  · have hsar : should_attempt_recovery cb now = false := by
      simp only [should_attempt_recovery, hlast, decide_eq_false_iff_not]
      omega
    have hs : cb_state cb now = ("open", cb) := by
      simp [cb_state, hsar, hop]
    simp only [cb_call, hs]
    simp [hlast, hop]
  · have hsar : should_attempt_recovery cb now = true := by
      simp only [should_attempt_recovery, hlast, decide_eq_true_eq]
      omega
    have hs : cb_state cb now
        = ("half_open", { cb with cbst := "half_open", halfOpenCalls := 0 }) := by
      simp [cb_state, hop, hsar]
    have hbudget : ¬({ cb with cbst := "half_open", halfOpenCalls := 0 } : CB).halfOpenMaxCalls
        ≤ ({ cb with cbst := "half_open", halfOpenCalls := 0 } : CB).halfOpenCalls := by
      simp
      omega
    refine ⟨by simp [hs], ?_, ?_, ?_, ?_⟩ <;>
      simp [cb_call, hs, hbudget, cb_on_success, cb_on_failure]

theorem C9_witness :
    ((⟨3, 60, 1, "closed", 2, none, 0⟩ : CB).cbst = "closed"
      ∧ (((cb_call ⟨3, 60, 1, "closed", 2, none, 0⟩ 5 false).2).cbst = "open"
          ↔ (3 : Nat) ≤ 2 + 1))
    ∧ cb_call ⟨3, 60, 1, "open", 3, some 100, 0⟩ 120 true
        = (.rejected (60 - (120 - 100)), ⟨3, 60, 1, "open", 3, some 100, 0⟩)
    ∧ (cb_state ⟨3, 60, 1, "open", 3, some 100, 0⟩ 200).1 = "half_open"
    ∧ ((cb_call ⟨3, 60, 1, "open", 3, some 100, 0⟩ 200 true).2).cbst = "closed"
    ∧ ((cb_call ⟨3, 60, 1, "open", 3, some 100, 0⟩ 200 false).2).cbst = "open" :=
  ⟨⟨rfl, (C9_circuit_breaker ⟨3, 60, 1, "closed", 2, none, 0⟩ 5 0).1 rfl⟩,
   (C9_circuit_breaker ⟨3, 60, 1, "open", 3, some 100, 0⟩ 120 100).2.1 rfl rfl
     (by decide) (by decide) true,
   ((C9_circuit_breaker ⟨3, 60, 1, "open", 3, some 100, 0⟩ 200 100).2.2 rfl rfl
     (by decide) (by decide)).1,
   ((C9_circuit_breaker ⟨3, 60, 1, "open", 3, some 100, 0⟩ 200 100).2.2 rfl rfl
     (by decide) (by decide)).2.2.1,
   ((C9_circuit_breaker ⟨3, 60, 1, "open", 3, some 100, 0⟩ 200 100).2.2 rfl rfl
     (by decide) (by decide)).2.2.2.2⟩

/-- C4: when the push of a freshly created command to the agent connection
reports gone, `create` marks the command record `failed` before returning,
the returned response is a 503 carrying the command id and status `failed`,
and an immediate `getStatus` by the owner reads `failed`. -/
theorem C4_gone_push_fails_synchronously (origins : List String) (limitMax : Nat)
    (tr : Transport) (st : St) (req : CreateReq) (userSub : String)
    (origin : Option String) (now : Nat) (freshId : String)
    (ac : String × Conn) (rest : List (String × Conn)) (code : String)
    (htype : falsyStr req.type = false)
    (hrate : (check_rate_limit st userSub now limitMax).1 = true)
    (hagent : get_user_connections (check_rate_limit st userSub now limitMax).2 userSub
        (some "agent") = ac :: rest)
    (hgone : tr ac.1 = .clientError code) (hcode : isGoneCode code = true) :
    ∃ stF, create_command origins limitMax tr st req userSub origin now freshId
        = .ok (http_response origins 503 (.goneObj "Agent disconnected" freshId "failed") origin,
               stF)
      ∧ (lookupA freshId stF.cmds).map Cmd.status = some "failed"
      ∧ get_command origins stF freshId userSub origin
        = http_response origins 200
            (.cmdObj freshId "failed" (req.type.getD "") none none (some now)) origin := by
  refine ⟨set_cmd_status (delete_connection
      ({ (check_rate_limit st userSub now limitMax).2 with
          cmds := putA freshId
            ⟨freshId, userSub, req.type.getD "", req.payload, "pending", none, none, none,
             none, none, none, now, none, now + COMMAND_TTL_SECONDS⟩
            (check_rate_limit st userSub now limitMax).2.cmds } : St) ac.1) freshId "failed",
    ?_, ?_, ?_⟩
  · simp only [create_command, htype, Bool.false_eq_true, if_false, hrate, Bool.not_true,
      hagent, send_to_connection, hgone, hcode, if_true, Bind.bind, Except.bind,
      Bool.not_false]
  · rw [lookup_set_cmd_status]
    have hput : lookupA freshId (delete_connection
        ({ (check_rate_limit st userSub now limitMax).2 with
            cmds := putA freshId
              ⟨freshId, userSub, req.type.getD "", req.payload, "pending", none, none, none,
               none, none, none, now, none, now + COMMAND_TTL_SECONDS⟩
              (check_rate_limit st userSub now limitMax).2.cmds } : St) ac.1).cmds
        = some ⟨freshId, userSub, req.type.getD "", req.payload, "pending", none, none, none,
                none, none, none, now, none, now + COMMAND_TTL_SECONDS⟩ := by
      simp [delete_connection, lookupA_putA_self]
    rw [hput]
    rfl
  · rw [get_command, lookup_set_cmd_status]
    have hput : lookupA freshId (delete_connection
        ({ (check_rate_limit st userSub now limitMax).2 with
            cmds := putA freshId
              ⟨freshId, userSub, req.type.getD "", req.payload, "pending", none, none, none,
               none, none, none, now, none, now + COMMAND_TTL_SECONDS⟩
              (check_rate_limit st userSub now limitMax).2.cmds } : St) ac.1).cmds
        = some ⟨freshId, userSub, req.type.getD "", req.payload, "pending", none, none, none,
                none, none, none, now, none, now + COMMAND_TTL_SECONDS⟩ := by
      simp [delete_connection, lookupA_putA_self]
    rw [hput]
    simp

theorem C4_witness :
    falsyStr (some "search") = false
    ∧ ∃ stF, create_command [] 10 (fun _ => .clientError "GoneException")
          ⟨[("ag", ⟨"u1", "agent", 0⟩)], [], []⟩ ⟨some "search", "q"⟩ "u1" none 0 "f1"
        = .ok (http_response [] 503 (.goneObj "Agent disconnected" "f1" "failed") none, stF)
      ∧ (lookupA "f1" stF.cmds).map Cmd.status = some "failed"
      ∧ get_command [] stF "f1" "u1" none
        = http_response [] 200 (.cmdObj "f1" "failed" "search" none none (some 0)) none :=
  ⟨rfl,
   C4_gone_push_fails_synchronously [] 10 (fun _ => .clientError "GoneException")
     ⟨[("ag", ⟨"u1", "agent", 0⟩)], [], []⟩ ⟨some "search", "q"⟩ "u1" none 0 "f1"
     ("ag", ⟨"u1", "agent", 0⟩) [] "GoneException" rfl rfl rfl rfl rfl⟩

/-- `check_rate_limit` touches only the counters. -/
theorem check_rate_limit_preserves_cmds (st : St) (userSub : String) (now limitMax : Nat) :
    (check_rate_limit st userSub now limitMax).2.cmds = st.cmds := by
  unfold check_rate_limit
  cases h : lookupA (userSub, now / RATE_LIMIT_WINDOW) st.counters with
  | none => simp [h]
  | some c => by_cases hc : c.count < limitMax <;> simp [h, hc]

/-- C8: a `create` call rejected before dispatch — missing type (400),
rate-limited (429), or no agent connection (409) — leaves the command store
unchanged: no command record is created. -/
theorem C8_rejected_create_writes_no_command (origins : List String) (limitMax : Nat)
    (tr : Transport) (st : St) (req : CreateReq) (userSub : String)
    (origin : Option String) (now : Nat) (freshId : String) (r : HResp) (stOut : St)
    (hres : create_command origins limitMax tr st req userSub origin now freshId
        = .ok (r, stOut))
    (hcode : r.statusCode = 400 ∨ r.statusCode = 429 ∨ r.statusCode = 409) :
    stOut.cmds = st.cmds := by
  unfold create_command at hres
  simp only [Bind.bind, Except.bind] at hres
  split at hres
  · obtain ⟨-, h2⟩ := Prod.mk.injEq .. ▸ Except.ok.inj hres
    rw [← h2]
  · split at hres
    · obtain ⟨-, h2⟩ := Prod.mk.injEq .. ▸ Except.ok.inj hres
      rw [← h2]
      exact check_rate_limit_preserves_cmds st userSub now limitMax
    · split at hres
      · obtain ⟨-, h2⟩ := Prod.mk.injEq .. ▸ Except.ok.inj hres
        rw [← h2]
        exact check_rate_limit_preserves_cmds st userSub now limitMax
      · split at hres
        · exact absurd hres (by simp)
        · split at hres
          · obtain ⟨h1, -⟩ := Prod.mk.injEq .. ▸ Except.ok.inj hres
            rw [← h1] at hcode
            simp [http_response] at hcode
          · split at hres
            · exact absurd hres (by simp)
            · obtain ⟨h1, -⟩ := Prod.mk.injEq .. ▸ Except.ok.inj hres
              rw [← h1] at hcode
              simp [http_response] at hcode

theorem C8_witness :
    create_command [] 10 (fun _ => .success)
        ⟨[], [("c0", ⟨"c0", "u1", "t", "", "pending", none, none, none, none, none, none,
                      0, none, 0⟩)], []⟩
        ⟨none, ""⟩ "u1" none 0 "f1"
      = .ok (http_response [] 400 (.errObj "type is required") none,
             ⟨[], [("c0", ⟨"c0", "u1", "t", "", "pending", none, none, none, none, none, none,
                           0, none, 0⟩)], []⟩)
    ∧ (⟨[], [("c0", ⟨"c0", "u1", "t", "", "pending", none, none, none, none, none, none,
                     0, none, 0⟩)], []⟩ : St).cmds
      = (⟨[], [("c0", ⟨"c0", "u1", "t", "", "pending", none, none, none, none, none, none,
                       0, none, 0⟩)], []⟩ : St).cmds :=
  ⟨rfl,
   C8_rejected_create_writes_no_command [] 10 (fun _ => .success)
     ⟨[], [("c0", ⟨"c0", "u1", "t", "", "pending", none, none, none, none, none, none,
                   0, none, 0⟩)], []⟩
     ⟨none, ""⟩ "u1" none 0 "f1" (http_response [] 400 (.errObj "type is required") none)
     ⟨[], [("c0", ⟨"c0", "u1", "t", "", "pending", none, none, none, none, none, none,
                   0, none, 0⟩)], []⟩
     rfl (Or.inl rfl)⟩

/-! ## C2: single connection per (user, clientType) -/

/-- At most one registered connection for the pair (user, clientType). -/
def atMostOne (st : St) (u t : String) : Prop :=
  (get_user_connections st u (some t)).length ≤ 1

/-- One connect event: (connectionId, query string, time). -/
abbrev ConnectEv := String × ConnectQS × Nat

/-- A sequence of connect events processed in order. -/
def run_connects (jwt : JwtValidator) (tr : Transport) : List ConnectEv → St → St
  | [], st => st
  | e :: rest, st => run_connects jwt tr rest (connect_handler jwt tr st e.1 e.2.1 e.2.2).2

/-- The event is a connect for user `u` with resolved client type `t` that
completes successfully: valid type, well-formed token that validates to a
claims set carrying `sub = u`. -/
def connectFor (jwt : JwtValidator) (u t : String) (e : ConnectEv) : Prop :=
  e.2.1.clientType.getD "browser" = t
  ∧ (t = "browser" ∨ t = "agent")
  ∧ ∃ tok, e.2.1.token = some tok ∧ tok ≠ ""
      ∧ ∃ cl, jwt tok = some cl ∧ cl.sub = some u ∧ u ≠ ""

/-- When the transport never reports a non-gone error, a forced disconnect
always deletes the registry record. -/
theorem try_disconnect_eq (tr : Transport) (st : St) (cid : String)
    (htr : ∀ c code, tr c = .clientError code → isGoneCode code = true) :
    try_disconnect tr st cid = delete_connection st cid := by
  unfold try_disconnect disconnect_connection
  cases h : tr cid with
  | success => rfl
  | clientError code => simp [htr cid code h]

/-- Every connection surviving the eviction fold was already present, and
its id differs from every evicted id. -/
theorem mem_evict_fold (tr : Transport) (cid : String)
    (htr : ∀ c code, tr c = .clientError code → isGoneCode code = true) :
    ∀ (l : List (String × Conn)) (acc : St) (p : String × Conn),
      p ∈ (l.foldl (fun a e => if e.1 ≠ cid then try_disconnect tr a e.1 else a) acc).conns →
      p ∈ acc.conns ∧ ∀ e ∈ l, e.1 ≠ cid → p.1 ≠ e.1 := by
  intro l
  induction l with
  | nil =>
      intro acc p hp
      exact ⟨hp, by simp⟩
  | cons e rest ih =>
      intro acc p hp
      rw [List.foldl_cons] at hp
      obtain ⟨hp1, hp2⟩ := ih _ p hp
      have hstep : p ∈ acc.conns ∧ (e.1 ≠ cid → p.1 ≠ e.1) := by
        by_cases he : e.1 ≠ cid
        · rw [if_pos he, try_disconnect_eq tr acc e.1 htr] at hp1
          simp only [delete_connection, delA, List.mem_filter, decide_eq_true_eq] at hp1
          exact ⟨hp1.1, fun _ => hp1.2⟩
        · rw [if_neg he] at hp1
          exact ⟨hp1, fun h => absurd h he⟩
      refine ⟨hstep.1, ?_⟩
      intro e2 he2 hne
      rcases List.mem_cons.mp he2 with h | h
      · rw [h] at hne ⊢
        exact hstep.2 hne
      · exact hp2 e2 h hne

/-- Registering a (u, t) connection puts it at the head of the (u, t)
enumeration, with any same-id record replaced. -/
theorem guc_store (st : St) (cid u t : String) (now : Nat) :
    get_user_connections (store_connection st cid u t now) u (some t)
      = (cid, ⟨u, t, now⟩) :: get_user_connections (delete_connection st cid) u (some t) := by
  simp [get_user_connections, store_connection, delete_connection, putA, delA,
    List.filter_cons]

/-- A single successful connect for (u, t) leaves at most one (u, t)
connection, whatever the starting state. -/
theorem connect_establishes_atMostOne (jwt : JwtValidator) (tr : Transport) (st : St)
    (cid : String) (qs : ConnectQS) (now : Nat) (u t : String)
    (htr : ∀ c code, tr c = .clientError code → isGoneCode code = true)
    (hct : qs.clientType.getD "browser" = t)
    (hvt : t = "browser" ∨ t = "agent")
    (tok : String) (htok : qs.token = some tok) (htokne : tok ≠ "")
    (cl : Claims) (hcl : jwt tok = some cl) (hsub : cl.sub = some u) (hu : u ≠ "") :
    atMostOne (connect_handler jwt tr st cid qs now).2 u t := by
  have hcond : ¬(qs.clientType.getD "browser" ≠ "browser"
      ∧ qs.clientType.getD "browser" ≠ "agent") := by
    rcases hvt with h | h <;> simp [hct, h]
  have hft : falsyStr qs.token = false := by simp [falsyStr, htok, htokne]
  have hfs : falsyStr cl.sub = false := by simp [falsyStr, hsub, hu]
  have hh : (connect_handler jwt tr st cid qs now).2
      = store_connection
          ((get_user_connections st u (some t)).foldl
            (fun acc p => if p.1 ≠ cid then try_disconnect tr acc p.1 else acc) st)
          cid u t now := by
    unfold connect_handler
    rw [if_neg hcond]
    simp only [hft, Bool.false_eq_true, if_false, htok, Option.getD_some, hcl, hfs, hsub,
      hct]
    simp [falsyStr, htokne, hu]
  rw [hh]
  unfold atMostOne
  rw [guc_store]
  have hempty : get_user_connections (delete_connection
      ((get_user_connections st u (some t)).foldl
        (fun acc p => if p.1 ≠ cid then try_disconnect tr acc p.1 else acc) st) cid)
      u (some t) = [] := by
    unfold get_user_connections delete_connection
    rw [List.filter_eq_nil_iff]
    intro p hp
    simp only [delA, List.mem_filter, decide_eq_true_eq] at hp
    obtain ⟨hmem, hkey⟩ := hp
    obtain ⟨hst, hdiff⟩ := mem_evict_fold tr cid htr _ st p hmem
    simp only [Bool.and_eq_true, decide_eq_true_eq, not_and]
    intro husr hty
    have hty2 : p.2.clientType = t := by simpa using hty
    have hpin : p ∈ get_user_connections st u (some t) := by
      simp [get_user_connections, List.mem_filter, hst, husr, hty2]
    exact absurd rfl (hdiff p hpin hkey)
  rw [hempty]
  simp

/-- Any nonempty sequence of successful connects for (u, t) ends with at
most one (u, t) connection registered. -/
theorem run_connects_atMostOne (jwt : JwtValidator) (tr : Transport) (u t : String)
    (htr : ∀ c code, tr c = .clientError code → isGoneCode code = true) :
    ∀ (evs : List ConnectEv) (st : St), (∀ e ∈ evs, connectFor jwt u t e) → evs ≠ [] →
      atMostOne (run_connects jwt tr evs st) u t := by
  intro evs
  induction evs with
  | nil => intro st _ hne; exact absurd rfl hne
  | cons e rest ih =>
      intro st hevs _
      cases rest with
      | nil =>
          obtain ⟨hct, hvt, tok, htok, htokne, cl, hcl, hsub, hu⟩ :=
            hevs e (List.mem_cons_self e [])
          simp only [run_connects]
          exact connect_establishes_atMostOne jwt tr st e.1 e.2.1 e.2.2 u t htr hct hvt
            tok htok htokne cl hcl hsub hu
      | cons e2 rest2 =>
          simp only [run_connects]
          exact ih _ (fun x hx => hevs x (List.mem_cons_of_mem _ hx)) (by simp)

/-- C2: for every user u and client type t, after any nonempty sequence of
successfully completed connect events for (u, t) — each of which evicts, via
forceDisconnect, every other registered connection of that (user, type)
before registering its own — at most one connection record for (u, t)
remains in the registry. -/
theorem C2_single_client_per_type (jwt : JwtValidator) (tr : Transport)
    (evs : List ConnectEv) (st : St) (u t : String)
    (htr : ∀ c code, tr c = .clientError code → isGoneCode code = true)
    (hevs : ∀ e ∈ evs, connectFor jwt u t e)
    (hne : evs ≠ []) :
    atMostOne (run_connects jwt tr evs st) u t :=
  run_connects_atMostOne jwt tr u t htr evs st hevs hne

theorem C2_witness :
    (∀ e ∈ ([("X1", ⟨some "tk", some "browser"⟩, 5),
             ("X2", ⟨some "tk", some "browser"⟩, 9)] : List ConnectEv),
        connectFor (fun tok => if tok = "tk" then some ⟨some "u1"⟩ else none) "u1" "browser" e)
    ∧ atMostOne
        (run_connects (fun tok => if tok = "tk" then some ⟨some "u1"⟩ else none)
          (fun _ => .success)
          [("X1", ⟨some "tk", some "browser"⟩, 5), ("X2", ⟨some "tk", some "browser"⟩, 9)]
          ⟨[("old", ⟨"u1", "browser", 0⟩)], [], []⟩)
        "u1" "browser" :=
  ⟨by
    intro e he
    rcases List.mem_cons.mp he with h | h
    · rw [h]
      exact ⟨rfl, Or.inl rfl, "tk", rfl, by decide, ⟨some "u1"⟩, by decide, rfl, by decide⟩
    · rcases List.mem_cons.mp h with h2 | h2
      · rw [h2]
        exact ⟨rfl, Or.inl rfl, "tk", rfl, by decide, ⟨some "u1"⟩, by decide, rfl, by decide⟩
      · exact absurd h2 (List.not_mem_nil e),
   C2_single_client_per_type (fun tok => if tok = "tk" then some ⟨some "u1"⟩ else none)
     (fun _ => .success)
     [("X1", ⟨some "tk", some "browser"⟩, 5), ("X2", ⟨some "tk", some "browser"⟩, 9)]
     ⟨[("old", ⟨"u1", "browser", 0⟩)], [], []⟩ "u1" "browser"
     (fun c code h => SendOutcome.noConfusion h)
     (by
       intro e he
       rcases List.mem_cons.mp he with h | h
       · rw [h]
         exact ⟨rfl, Or.inl rfl, "tk", rfl, by decide, ⟨some "u1"⟩, by decide, rfl, by decide⟩
       · rcases List.mem_cons.mp h with h2 | h2
         · rw [h2]
           exact ⟨rfl, Or.inl rfl, "tk", rfl, by decide, ⟨some "u1"⟩, by decide, rfl, by decide⟩
         · exact absurd h2 (List.not_mem_nil e))
     (by simp)⟩

/-! ## C5: per-user fixed-window rate limiting -/

/-- `k` consecutive `POST /commands` calls by one user at one time, the
`i`-th using the generated id `ids i`. -/
def run_creates (origins : List String) (limitMax : Nat) (tr : Transport) (ids : Nat → String)
    (req : CreateReq) (userSub : String) (origin : Option String) (now : Nat) :
    Nat → St → Except (String × St) (List HResp × St)
  | 0, st => .ok ([], st)
  | k + 1, st => do
      let r ← run_creates origins limitMax tr ids req userSub origin now k st
      let c ← create_command origins limitMax tr r.2 req userSub origin now (ids k)
      .ok (r.1 ++ [c.1], c.2)

theorem check_rate_limit_preserves_conns (st : St) (userSub : String) (now limitMax : Nat) :
    (check_rate_limit st userSub now limitMax).2.conns = st.conns := by
  unfold check_rate_limit
  cases h : lookupA (userSub, now / RATE_LIMIT_WINDOW) st.counters with
  | none => simp [h]
  | some c => by_cases hc : c.count < limitMax <;> simp [h, hc]

theorem guc_eq_of_conns (st1 st2 : St) (h : st1.conns = st2.conns) (u : String)
    (ct : Option String) : get_user_connections st1 u ct = get_user_connections st2 u ct := by
  simp [get_user_connections, h]

/-- With an all-success transport, the best-effort browser fan-out leaves
the state untouched. -/
theorem foldSend_success (tr : Transport) (msg : OutMsg) (htr : ∀ c, tr c = .success) :
    ∀ (l : List (String × Conn)) (st : St),
      l.foldlM (fun acc p => do
        let r ← send_to_connection tr acc p.1 msg
        pure r.2) st = .ok st := by
  intro l
  induction l with
  | nil => intro st; rfl
  | cons p rest ih =>
      intro st
      rw [List.foldlM_cons]
      simp only [send_to_connection, htr p.1, Bind.bind, Except.bind, pure, Except.pure]
      exact ih st

/-- A create call that reaches dispatch with an all-success transport
returns 200/dispatched, touching neither the connections nor anything of
the counters beyond the rate-limit increment. -/
theorem create_success_step (origins : List String) (limitMax : Nat) (tr : Transport)
    (st : St) (req : CreateReq) (userSub : String) (origin : Option String) (now : Nat)
    (fid : String)
    (htr : ∀ c, tr c = .success)
    (hreq : falsyStr req.type = false)
    (hagent : get_user_connections st userSub (some "agent") ≠ [])
    (hcnt : (check_rate_limit st userSub now limitMax).1 = true) :
    ∃ stO, create_command origins limitMax tr st req userSub origin now fid
        = .ok (http_response origins 200 (.createdObj fid "dispatched") origin, stO)
      ∧ stO.conns = st.conns
      ∧ stO.counters = (check_rate_limit st userSub now limitMax).2.counters := by
  obtain ⟨ac, rest, hag⟩ := List.exists_cons_of_ne_nil hagent
  have hag2 : get_user_connections (check_rate_limit st userSub now limitMax).2 userSub
      (some "agent") = ac :: rest := by
    rw [guc_eq_of_conns _ st (check_rate_limit_preserves_conns st userSub now limitMax)]
    exact hag
  have hsend : ∀ (s : St) (cid : String) (msg : OutMsg),
      send_to_connection tr s cid msg = .ok (true, s) := fun s cid msg => by
    simp [send_to_connection, htr cid]
  have hnotify : ∀ (s : St) (u f : String), notify_browsers tr s u f = .ok s := by
    intro s u f
    unfold notify_browsers
    exact foldSend_success tr
      { OutMsg.base with action := "command_queued", commandId := some f } htr _ s
  refine ⟨set_cmd_status
      ({ (check_rate_limit st userSub now limitMax).2 with
          cmds := putA fid
            ⟨fid, userSub, req.type.getD "", req.payload, "pending", none, none, none,
             none, none, none, now, none, now + COMMAND_TTL_SECONDS⟩
            (check_rate_limit st userSub now limitMax).2.cmds } : St) fid "dispatched",
    ?_, ?_, ?_⟩
  · simp only [create_command, hreq, Bool.false_eq_true, if_false, hcnt, Bool.not_true,
      hag2, Bind.bind, Except.bind, hsend, hnotify, Bool.not_true, Bool.not_false, if_true]
  · simp [set_cmd_status, check_rate_limit_preserves_conns]
  · simp [set_cmd_status]

/-- Invariant of a run of `j ≤ limitMax` creates in one window starting from
a counter-free state: every call passes the rate check and returns 200, the
connections are untouched, and the counter reads `j`. -/
theorem run_creates_invariant (origins : List String) (limitMax : Nat) (tr : Transport)
    (ids : Nat → String) (req : CreateReq) (userSub : String) (origin : Option String)
    (now : Nat) (st : St)
    (htr : ∀ c, tr c = .success)
    (hreq : falsyStr req.type = false)
    (hagent : get_user_connections st userSub (some "agent") ≠ [])
    (h0 : lookupA (userSub, now / RATE_LIMIT_WINDOW) st.counters = none) :
    ∀ j : Nat, j ≤ limitMax →
      ∃ resps stj,
        run_creates origins limitMax tr ids req userSub origin now j st = .ok (resps, stj)
        ∧ resps.length = j
        ∧ (∀ r ∈ resps, r.statusCode = 200)
        ∧ stj.conns = st.conns
        ∧ (j = 0 → stj.counters = st.counters)
        ∧ (0 < j → lookupA (userSub, now / RATE_LIMIT_WINDOW) stj.counters
            = some ⟨j, now + RATE_LIMIT_WINDOW + 60⟩) := by
  intro j
  induction j with
  | zero =>
      intro _
      exact ⟨[], st, rfl, rfl, by simp, rfl, fun _ => rfl, fun h => absurd h (by simp)⟩
  | succ k ih =>
      intro hle
      obtain ⟨resps, stk, hrun, hlen, h200, hconns, hcnt0, hcntpos⟩ := ih (Nat.le_of_succ_le hle)
      have hagentk : get_user_connections stk userSub (some "agent") ≠ [] := by
        rw [guc_eq_of_conns stk st hconns]
        exact hagent
      have hcheck : (check_rate_limit stk userSub now limitMax).1 = true
          ∧ lookupA (userSub, now / RATE_LIMIT_WINDOW)
              (check_rate_limit stk userSub now limitMax).2.counters
            = some ⟨k + 1, now + RATE_LIMIT_WINDOW + 60⟩ := by
        cases Nat.eq_zero_or_pos k with
        | inl hk =>
            have hck : lookupA (userSub, now / RATE_LIMIT_WINDOW) stk.counters = none := by
              rw [hcnt0 hk]
              exact h0
            constructor
            · simp [check_rate_limit, hck]
            · simp [check_rate_limit, hck, hk, lookupA_putA_self]
        | inr hk =>
            have hck := hcntpos hk
            have hklt : k < limitMax := Nat.lt_of_succ_le hle
            constructor
            · simp [check_rate_limit, hck, hklt]
            · simp [check_rate_limit, hck, hklt, lookupA_putA_self]
      obtain ⟨stO, hco, hcoConns, hcoCnt⟩ := create_success_step origins limitMax tr stk req
        userSub origin now (ids k) htr hreq hagentk hcheck.1
      refine ⟨resps ++ [http_response origins 200 (.createdObj (ids k) "dispatched") origin],
        stO, ?_, ?_, ?_, ?_, ?_, ?_⟩
      · show run_creates origins limitMax tr ids req userSub origin now (k + 1) st = _
        rw [run_creates]
        simp only [hrun, Bind.bind, Except.bind, hco]
      · simp [hlen]
      · intro r hr
        rcases List.mem_append.mp hr with h | h
        · exact h200 r h
        · rw [List.mem_singleton.mp h]
          rfl
      · rw [hcoConns, hconns]
      · intro h
        exact absurd h (by simp)
      · intro _
        rw [hcoCnt]
        exact hcheck.2

/-- C5: with the counter store available and `RATE_LIMIT_MAX = N > 0`, the
first N create calls of a user inside one 60-second window all pass the
rate-limit check (returning 200), and the (N+1)-th fails the check and is
answered with a 429 carrying code RATE_LIMITED and retryAfter = 60, with the
store state — in particular the command store — exactly as after the N-th
call: the rejected call creates no command. -/
theorem C5_fixed_window_rate_limit (origins : List String) (limitMax : Nat) (tr : Transport)
    (ids : Nat → String) (req : CreateReq) (userSub : String) (origin : Option String)
    (now : Nat) (st : St)
    (hpos : 0 < limitMax)
    (htr : ∀ c, tr c = .success)
    (hreq : falsyStr req.type = false)
    (hagent : get_user_connections st userSub (some "agent") ≠ [])
    (h0 : lookupA (userSub, now / RATE_LIMIT_WINDOW) st.counters = none) :
    ∃ resps stN,
      run_creates origins limitMax tr ids req userSub origin now limitMax st
        = .ok (resps, stN)
      ∧ resps.length = limitMax
      ∧ (∀ r ∈ resps, r.statusCode = 200)
      ∧ (check_rate_limit stN userSub now limitMax).1 = false
      ∧ run_creates origins limitMax tr ids req userSub origin now (limitMax + 1) st
        = .ok (resps ++ [http_response origins 429
            (.rateLimitObj "Too many commands. Please wait before sending more."
              "RATE_LIMITED" RATE_LIMIT_WINDOW) origin], stN) := by
  obtain ⟨resps, stN, hrun, hlen, h200, hconns, _, hcntpos⟩ :=
    run_creates_invariant origins limitMax tr ids req userSub origin now st htr hreq hagent h0
      limitMax (Nat.le_refl limitMax)
  have hck : check_rate_limit stN userSub now limitMax = (false, stN) := by
    simp only [check_rate_limit, hcntpos hpos]
    simp
  have hcreate : create_command origins limitMax tr stN req userSub origin now (ids limitMax)
      = .ok (http_response origins 429
          (.rateLimitObj "Too many commands. Please wait before sending more."
            "RATE_LIMITED" RATE_LIMIT_WINDOW) origin, stN) := by
    simp only [create_command, hreq, Bool.false_eq_true, if_false, hck, Bool.not_false,
      if_true]
  refine ⟨resps, stN, hrun, hlen, h200, by rw [hck], ?_⟩
  rw [run_creates]
  simp only [hrun, Bind.bind, Except.bind, hcreate]

theorem C5_witness :
    (0 : Nat) < 2
    ∧ get_user_connections (⟨[("ag", ⟨"u1", "agent", 0⟩)], [], []⟩ : St) "u1" (some "agent") ≠ []
    ∧ ∃ resps stN,
        run_creates [] 2 (fun _ => .success) (fun i => Nat.repr i) ⟨some "t", "p"⟩ "u1" none 30
          2 ⟨[("ag", ⟨"u1", "agent", 0⟩)], [], []⟩
          = .ok (resps, stN)
        ∧ resps.length = 2
        ∧ (∀ r ∈ resps, r.statusCode = 200)
        ∧ (check_rate_limit stN "u1" 30 2).1 = false
        ∧ run_creates [] 2 (fun _ => .success) (fun i => Nat.repr i) ⟨some "t", "p"⟩ "u1" none 30
            3 ⟨[("ag", ⟨"u1", "agent", 0⟩)], [], []⟩
          = .ok (resps ++ [http_response [] 429
              (.rateLimitObj "Too many commands. Please wait before sending more."
                "RATE_LIMITED" RATE_LIMIT_WINDOW) none], stN) :=
  ⟨by decide, by decide,
   C5_fixed_window_rate_limit [] 2 (fun _ => .success) (fun i => Nat.repr i) ⟨some "t", "p"⟩
     "u1" none 30 ⟨[("ag", ⟨"u1", "agent", 0⟩)], [], []⟩
     (by decide) (fun c => rfl) rfl (by decide) rfl⟩

end WarmReach
